import Mathlib

/-!
Verification of the Job_Applying discovery-and-triage pipeline.

Shallow embedding of:
- `app/agents/job_scoring/scoring_agent.py` (scoring tools, `score_job`, `run`)
- `app/agents/supervisor_agent.py` (circuit-breaker supervisor)
- `app/orchestrator/orchestrator.py` (`discover_jobs`: platform fan-out and URL dedup)
- `app/tools/utils/rate_limiter.py` (`RateLimiter`)
- `app/agents/job_discovery/base_discovery_agent.py` (`filter_relevant_jobs`)

Python strings are modelled as Lean `String`, dicts with fixed keys as structures
(optional keys as `Option`), machine-independent ints as `Nat`. External I/O
(browser fetches, LLM calls, Telegram, the file system) is outside the model:
functions take the data those calls would produce as arguments.
-/

namespace JobApplying

/-! ## Python-style string primitives -/

/-- Python `str.lower()` (ASCII case folding; all constants in the repository are ASCII). -/
def pyLower (s : String) : String := String.mk (s.toList.map Char.toLower)

/-- Substring occurrence on character lists. -/
def subAux (needle : List Char) : List Char → Bool
  | [] => needle.isEmpty
  | h :: t => needle.isPrefixOf (h :: t) || subAux needle t

/-- Python `needle in hay` on strings. -/
def pyIn (needle hay : String) : Bool := subAux needle.toList hay.toList

/-- Numeric value of a digit run (Python `int` of a digit string). -/
def natFromChars (cs : List Char) : Nat :=
  cs.foldl (fun acc c => acc * 10 + (c.toNat - 48)) 0

/-- Worker for `findNums`: carries the value of the digit run in progress. -/
def findNumsGo : Option Nat → List Char → List Nat
  | cur, [] => (match cur with | some n => [n] | none => [])
  | cur, c :: t =>
    if c.isDigit then findNumsGo (some ((cur.getD 0) * 10 + (c.toNat - 48))) t
    else
      match cur with
      | some n => n :: findNumsGo none t
      | none => findNumsGo none t

/-- Python `re.findall(r'\d+', s)` converted to numbers: maximal digit runs, in order. -/
def findNums (s : String) : List Nat := findNumsGo none s.toList

/-- Drop leading whitespace (regex `\s*`). -/
def skipWs (l : List Char) : List Char := l.dropWhile Char.isWhitespace

/-- Consume one expected character, or fail. -/
def expectChar (c : Char) : List Char → Option (List Char)
  | [] => none
  | x :: t => if x == c then some t else none

/-- Consume an expected literal, or fail. -/
def expectLit (pre : String) (l : List Char) : Option (List Char) :=
  if pre.toList.isPrefixOf l then some (l.drop pre.toList.length) else none

/-- Consume a nonempty digit run (regex `(\d+)`), returning its value and the rest. -/
def digits1 (l : List Char) : Option (Nat × List Char) :=
  let d := l.takeWhile Char.isDigit
  if d.isEmpty then none else some (natFromChars d, l.dropWhile Char.isDigit)

/-! ## Constants from `app/config/constants.py` -/

def USER_SKILLS : List String :=
  ["Python", "Machine Learning", "Deep Learning", "NLP",
   "LLM", "Large Language Models", "LangChain", "RAG",
   "Prompt Engineering", "Groq", "Hugging Face",
   "TensorFlow", "Keras", "Scikit-Learn", "FastAPI",
   "NumPy", "Pandas", "Transformer", "PyTorch",
   "n8n", "Vocode", "Deepgram", "FAISS", "Vector Database",
   "AI", "Artificial Intelligence", "API Development",
   "Backend Development", "Node.js", "GenAI", "Generative AI"]

def EXCLUDED_SKILLS : List String :=
  ["Computer Vision", "CV", "OpenCV", "Image Processing",
   "Object Detection", "YOLO", "Image Recognition",
   "Video Processing", "Image Classification"]

def USER_EXPERIENCE_YEARS : Nat := 1

def TARGET_JOB_TITLES : List String :=
  ["AI Engineer", "Machine Learning Engineer", "ML Engineer", "AI Developer",
   "LLM Engineer", "NLP Engineer", "Deep Learning Engineer", "Data Scientist",
   "Applied ML Engineer", "AI/ML Engineer", "GenAI Engineer",
   "Generative AI Engineer", "ML Developer", "Machine Learning Developer",
   "Conversational AI Engineer", "AI Research Engineer"]

def EXCLUDED_JOB_TITLES : List String :=
  ["Computer Vision Engineer", "CV Engineer", "Image Processing Engineer",
   "Video AI Engineer"]

/-! ## Scoring tools (`app/agents/job_scoring/scoring_agent.py`) -/

/-- Result dict of `calculate_skill_match`. -/
structure SkillResult where
  score : Nat
  matching_skills : List String
  missing_skills : List String
deriving DecidableEq

def user_skills_lower : List String := USER_SKILLS.map pyLower

/-- A job skill counts as matching when some user skill occurs inside it or it occurs
inside some user skill (`calculate_skill_match` line 43). -/
def skillMatches (skill : String) : Bool :=
  user_skills_lower.any (fun us => pyIn us skill) ||
  user_skills_lower.any (fun us => pyIn skill us)

/-- Embeds `calculate_skill_match` (scoring_agent.py lines 23-63). Python's
`set(...)` of lowercased skills is modelled as the duplicate-free list of first
occurrences: the score depends only on the set's cardinality and membership, not on
iteration order. `int(match_ratio * 40)` is the floor of `len(matching)/len(all) * 40`,
modelled as Nat floor division. -/
def calculate_skill_match (job_skills required_skills : List String) : SkillResult :=
  let all_job_skills := ((job_skills ++ required_skills).map pyLower).eraseDups
  let matching := all_job_skills.filter skillMatches
  let missing := all_job_skills.filter (fun skill =>
    !skillMatches skill && !(EXCLUDED_SKILLS.any (fun ex => pyIn (pyLower ex) skill)))
  let score :=
    if all_job_skills.length > 0 then (matching.length * 40) / all_job_skills.length
    else 25
  { score := score, matching_skills := matching, missing_skills := missing }

/-- Result dict of `calculate_experience_match` (score / analysis / is_excluded). -/
structure ExpResult where
  score : Nat
  analysis : String
  is_excluded : Bool
deriving DecidableEq

def fresher_kws : List String := ["fresher", "fresh", "entry", "intern", "trainee", "graduate"]

def junior_kws : List String := ["junior", "jr", "associate"]

/-- Embeds `calculate_experience_match` (scoring_agent.py lines 66-136): numbers are
extracted with `re.findall(r'\d+', ...)`; `min_exp` is the first, `max_exp` the second
when present else `min_exp`. -/
def calculate_experience_match (experience_required : String) : ExpResult :=
  let exp_lower := pyLower experience_required
  let numbers := findNums exp_lower
  let min_exp : Option Nat := numbers.head?
  let max_exp : Option Nat :=
    match numbers with
    | _ :: b :: _ => some b
    | _ => numbers.head?
  let is_fresher_role := fresher_kws.any (fun kw => pyIn kw exp_lower)
  let is_junior := junior_kws.any (fun kw => pyIn kw exp_lower)
  let maxLe (k : Nat) : Bool := (match max_exp with | none => true | some mx => mx ≤ k)
  match min_exp with
  | some mn =>
    if mn ≥ 3 then
      ⟨0, "Requires " ++ toString mn ++ "+ years minimum - too senior for 1 year exp", true⟩
    else if mn == 0 && maxLe 2 then ⟨25, "Perfect match (0-2 years)", false⟩
    else if mn ≤ 1 && maxLe 3 then ⟨25, "Good match for 1 year experience", false⟩
    else if mn == 2 && maxLe 4 then ⟨15, "Stretch role (2+ years preferred)", false⟩
    else ⟨0, "Experience requirement too high (" ++ experience_required ++ ")", true⟩
  | none =>
    if is_fresher_role || is_junior then ⟨25, "Entry-level/fresher role", false⟩
    else if exp_lower == "" || pyIn "not specified" exp_lower then
      ⟨15, "Experience not specified", false⟩
    else ⟨10, "Experience requirement unclear", false⟩

/-- Result dict of `calculate_location_match`. -/
structure LocResult where
  score : Nat
  is_remote : Bool
deriving DecidableEq

def high_priority_cities : List String :=
  ["bangalore", "bengaluru", "hyderabad", "chennai",
   "kochi", "cochin", "calicut", "kozhikode",
   "trivandrum", "thiruvananthapuram", "mohali",
   "delhi", "gurgaon", "noida", "goa"]

/-- Embeds `calculate_location_match` (scoring_agent.py lines 139-175). -/
def calculate_location_match (job_location : String) : LocResult :=
  let loc_lower := pyLower job_location
  if pyIn "remote" loc_lower || pyIn "wfh" loc_lower || pyIn "home" loc_lower then
    ⟨15, true⟩
  else if high_priority_cities.any (fun c => pyIn c loc_lower) then ⟨15, false⟩
  else if pyIn "hybrid" loc_lower then ⟨12, false⟩
  else if ["mumbai", "pune", "delhi", "gurgaon", "noida", "india"].any
      (fun c => pyIn c loc_lower) then ⟨10, false⟩
  else ⟨5, false⟩

/-- Result dict of `calculate_role_relevance` (the `matched_role` key is reported but
never read downstream; omitted). -/
structure RoleResult where
  score : Nat
  is_excluded : Bool
  reason : String
deriving DecidableEq

def cv_title_kws : List String := ["computer vision", "opencv", "image", "video"]

def ai_title_kws : List String := ["ai", "ml", "machine learning", "llm", "nlp", "genai"]

/-- Embeds `calculate_role_relevance` (scoring_agent.py lines 178-213); the exclusion
loop returns on the first matching excluded title, modelled with `find?`. -/
def calculate_role_relevance (job_title : String) : RoleResult :=
  let title_lower := pyLower job_title
  match EXCLUDED_JOB_TITLES.find? (fun ex => pyIn (pyLower ex) title_lower) with
  | some ex => ⟨0, true, "Excluded: " ++ ex⟩
  | none =>
    if cv_title_kws.any (fun kw => pyIn kw title_lower) then
      ⟨0, true, "Computer Vision role"⟩
    else
      let score :=
        if TARGET_JOB_TITLES.any (fun t => pyIn (pyLower t) title_lower) then 20
        else if ai_title_kws.any (fun kw => pyIn kw title_lower) then 18
        else if pyIn "data scientist" title_lower then 15
        else if pyIn "engineer" title_lower || pyIn "developer" title_lower then 10
        else 5
      ⟨score, false, ""⟩

/-! ## `score_job` (scoring_agent.py lines 323-402)

`score_job` may first re-derive the experience requirement from the description with
two `re.search` patterns (lines 346-367). Those searches are embedded below; the
regex alternatives are tried in source order, and a match attempt at one start
position is followed by attempts at later positions, matching `re.search`'s
leftmost-match rule. The async full-description browser fetch (lines 335-341) is
external I/O: `job_description` is taken to be the text available to scoring. -/

/-- One match attempt of `experience\s*:\s*(\d+)(?:\s*-\s*(\d+))?\s*y` at the start of
`l` (run on the lowercased description). The optional `-` group is tried first and the
whole tail re-tried without it when it fails, as regex backtracking does. -/
def tryExpColon (l : List Char) : Option (Nat × Option Nat) := do
  let r ← expectLit "experience" l
  let r ← expectChar ':' (skipWs r)
  let (n1, r) ← digits1 (skipWs r)
  let withRange : Option Nat := do
    let q ← expectChar '-' (skipWs r)
    let (n2, q) ← digits1 (skipWs q)
    let _ ← expectChar 'y' (skipWs q)
    pure n2
  match withRange with
  | some n2 => pure (n1, some n2)
  | none => do
    let _ ← expectChar 'y' (skipWs r)
    pure (n1, none)

/-- The common tail `\s*\+?\s*years?\s*experience` of the second pattern. -/
def yearsExpTail (q : List Char) : Option Unit := do
  let q := skipWs q
  let q := (match expectChar '+' q with | some q2 => q2 | none => q)
  let q ← expectLit "year" (skipWs q)
  let q := (match expectChar 's' q with | some q2 => q2 | none => q)
  let _ ← expectLit "experience" (skipWs q)
  pure ()

/-- One match attempt of `(\d+)(?:\s*-\s*(\d+))?\s*\+?\s*years?\s*experience` at the
start of `l`. -/
def tryYearsExp (l : List Char) : Option (Nat × Option Nat) := do
  let (n1, r) ← digits1 l
  let withRange : Option Nat := do
    let q ← expectChar '-' (skipWs r)
    let (n2, q) ← digits1 (skipWs q)
    let _ ← yearsExpTail q
    pure n2
  match withRange with
  | some n2 => pure (n1, some n2)
  | none => do
    let _ ← yearsExpTail r
    pure (n1, none)

/-- `re.search` driver for pattern 1: try each start position left to right. -/
def searchExpColon : List Char → Option (Nat × Option Nat)
  | [] => none
  | c :: t =>
    match tryExpColon (c :: t) with
    | some r => some r
    | none => searchExpColon t

/-- `re.search` driver for pattern 2. -/
def searchYearsExp : List Char → Option (Nat × Option Nat)
  | [] => none
  | c :: t =>
    match tryYearsExp (c :: t) with
    | some r => some r
    | none => searchYearsExp t

/-- Lines 344-367 of `score_job`: when `experience_required` is empty or
"not specified" and a description exists, extract the requirement from the
description (pattern 1, then pattern 2) and re-format it as "m-n years" / "m years".
Python's `if max_e:` treats both `None` and `0` as falsy. -/
def effectiveExpReq (exp_req description : String) : String :=
  if (exp_req == "" || pyLower exp_req == "not specified") && description != "" then
    let d := (pyLower description).toList
    match (searchExpColon d).orElse (fun _ => searchYearsExp d) with
    | some (mn, mx) =>
      match mx with
      | some m =>
        if m != 0 then toString mn ++ "-" ++ toString m ++ " years"
        else toString mn ++ " years"
      | none => toString mn ++ " years"
    | none => exp_req
  else exp_req

/-- One raw job listing as the agents consume it (dict keys read by the pipeline;
absent keys default to the empty string / empty list, as `job.get(..., default)` does). -/
structure Job where
  role : String := ""
  company : String := ""
  location : String := ""
  experience_required : String := ""
  job_description : String := ""
  job_url : String := ""
  posted_date : String := ""
  platform : String := ""
  skills_required : List String := []
deriving DecidableEq

/-- The dict returned by `score_job`. The two hard-exclusion early returns (lines
333 and 371) produce only `fit_score`, `is_excluded` and `reason`; the sub-score and
recommendation keys exist only on the non-excluded result, modelled as `Option`. -/
structure ScoreResult where
  fit_score : Nat
  is_excluded : Bool
  reason : String
  skill_match_score : Option Nat
  experience_match_score : Option Nat
  location_match_score : Option Nat
  role_relevance_score : Option Nat
  recommendation : Option String
deriving DecidableEq

/-- Embeds `score_job` (scoring_agent.py lines 323-402). -/
def score_job (job : Job) : ScoreResult :=
  let role_result := calculate_role_relevance job.role
  if role_result.is_excluded then
    { fit_score := 0, is_excluded := true, reason := role_result.reason,
      skill_match_score := none, experience_match_score := none,
      location_match_score := none, role_relevance_score := none,
      recommendation := none }
  else
    let exp_req := effectiveExpReq job.experience_required job.job_description
    let exp_result := calculate_experience_match exp_req
    if exp_result.is_excluded then
      { fit_score := 0, is_excluded := true,
        reason := "Experience too high (" ++ exp_req ++ "): " ++ exp_result.analysis,
        skill_match_score := none, experience_match_score := none,
        location_match_score := none, role_relevance_score := none,
        recommendation := none }
    else
      let loc_result := calculate_location_match job.location
      let skill_result := calculate_skill_match job.skills_required []
      let total_score :=
        skill_result.score + exp_result.score + loc_result.score + role_result.score
      let recommendation :=
        if total_score ≥ 80 then "apply"
        else if total_score ≥ 60 then "maybe"
        else "skip"
      { fit_score := total_score, is_excluded := false,
        reason := "Breakdown: Skills " ++ toString skill_result.score ++ "/40, Exp " ++
          toString exp_result.score ++ "/25, Loc " ++ toString loc_result.score ++
          "/15, Role " ++ toString role_result.score ++ "/20",
        skill_match_score := some skill_result.score,
        experience_match_score := some exp_result.score,
        location_match_score := some loc_result.score,
        role_relevance_score := some role_result.score,
        recommendation := some recommendation }

/-! ## `ScoringAgentLangGraph.run` (scoring_agent.py lines 404-441)

`run` scores each job, drops excluded or below-threshold jobs, enriches the
survivors (LLM-generated text fields that neither change `fit_score` nor the list
order; the survivor is modelled as the job paired with its score result), and sorts
with `list.sort(key=fit_score, reverse=True)` — Python's stable sort. -/

/-- Scoring and filtering loop of `run` (lines 411-429), in input order. -/
def score_and_keep (jobs : List Job) (min_score : Nat) : List (Job × ScoreResult) :=
  jobs.filterMap (fun job =>
    let result := score_job job
    if result.is_excluded || result.fit_score < min_score then none
    else some (job, result))

/-- The sort key comparison: descending `fit_score`. -/
def fitRel (a b : Job × ScoreResult) : Prop := b.2.fit_score ≤ a.2.fit_score

instance : DecidableRel fitRel := fun _ _ => Nat.decLe _ _

instance : IsTotal (Job × ScoreResult) fitRel :=
  ⟨fun a b => (Nat.le_total a.2.fit_score b.2.fit_score).symm⟩

instance : IsTrans (Job × ScoreResult) fitRel :=
  ⟨fun _ _ _ h1 h2 => Nat.le_trans h2 h1⟩

/-- `scored_jobs.sort(key=lambda x: x.get("fit_score", 0), reverse=True)` (line 431):
a stable descending sort, modelled by stable insertion sort. -/
def sort_by_fit (l : List (Job × ScoreResult)) : List (Job × ScoreResult) :=
  List.insertionSort fitRel l

/-- Embeds `run`: score, filter, stable-sort by descending fit score. -/
def run_scoring (jobs : List Job) (min_score : Nat) : List (Job × ScoreResult) :=
  sort_by_fit (score_and_keep jobs min_score)

/-! ## Supervisor (`app/agents/supervisor_agent.py`)

Per-platform health dict `health_data`, modelled as an association list. The
wall-clock timestamp strings and the floating-point `avg_duration` moving average
are recorded but never read by any control decision; they are omitted. The Telegram
notification in `record_failure` is fire-and-forget external I/O; the embedding
returns whether the alert was sent. -/

inductive PStatus where
  | active
  | disabled
deriving DecidableEq

/-- One `health_data[platform]` entry. -/
structure PlatformHealth where
  failures : Nat
  success_count : Nat
  total_jobs : Nat
  status : PStatus
  last_error : String
deriving DecidableEq

/-- The dict literal both `record_success` and `record_failure` install for a new
platform (failures 0, active). -/
def initHealth : PlatformHealth :=
  { failures := 0, success_count := 0, total_jobs := 0,
    status := PStatus.active, last_error := "" }

def SupState : Type := List (String × PlatformHealth)

/-- Reading `health_data` with the missing-platform default used by the source
(`record_*` first install `initHealth`; `is_platform_active` defaults the status to
"active", which `initHealth` also carries). -/
def getHealth (s : SupState) (p : String) : PlatformHealth :=
  match s.find? (fun e => e.1 == p) with
  | some e => e.2
  | none => initHealth

/-- Writing one platform's entry back into `health_data`. -/
def setHealth (s : SupState) (p : String) (h : PlatformHealth) : SupState :=
  match s with
  | [] => [(p, h)]
  | e :: t => if e.1 == p then (p, h) :: t else e :: setHealth t p h

def max_failures : Nat := 3

/-- Embeds `record_failure` (supervisor_agent.py lines 57-79). The returned Bool is
true when the disable branch ran, i.e. when the Telegram alert was sent. -/
def record_failure (s : SupState) (p : String) (error : String) : SupState × Bool :=
  let d := getHealth s p
  let d2 := { d with failures := d.failures + 1, last_error := error }
  if d2.failures ≥ max_failures then
    (setHealth s p { d2 with status := PStatus.disabled }, true)
  else
    (setHealth s p d2, false)

/-- Embeds `is_platform_active` (supervisor_agent.py lines 26-29). -/
def is_platform_active (s : SupState) (p : String) : Bool :=
  (getHealth s p).status == PStatus.active

/-- `k` consecutive `record_failure` calls for one platform, counting how many of
them sent the disable alert. -/
def record_failures_from (s : SupState) (p : String) (err : String) : Nat → SupState × Nat
  | 0 => (s, 0)
  | k + 1 =>
    let (s1, n) := record_failures_from s p err k
    let (s2, alerted) := record_failure s1 p err
    (s2, n + if alerted then 1 else 0)

/-! ## Orchestrator discovery (`app/orchestrator/orchestrator.py` lines 55-153)

`discover_jobs` loads the persisted `seen_urls.json` set, runs `search_platform`
for every requested platform (a semaphore of 1 makes the platform tasks strictly
sequential), accepts each returned job whose `job_url` is non-empty and not yet in
the seen set while adding it to the set, and saves the set back at run end. The
adapter outputs of one run are modelled as the list of per-(platform, location,
keyword) job batches in execution order. `search_platform` never references the
supervisor: whether an adapter is invoked depends only on the platform list, the
agent mapping and the location/keyword lists. -/

/-- The keys of `PLATFORM_AGENTS` (orchestrator.py lines 20-29): platforms that have
a discovery agent. -/
def PLATFORM_AGENTS : List String :=
  ["linkedin", "indeed", "naukri", "glassdoor", "instahyre", "cutshort",
   "wellfound", "hirist"]

/-- Whether one DiscoveryRun invokes platform `p`'s adapter (`agent.run`, line 108):
`p` must be in the requested platform list with a known agent, and there must be at
least one location and one keyword to loop over. Faithful to the source, the
supervisor state is not an input. -/
def adapter_invoked (platforms locations keywords : List String) (p : String) : Bool :=
  platforms.contains p && PLATFORM_AGENTS.contains p &&
  !locations.isEmpty && !keywords.isEmpty

/-- The per-batch dedup loop (orchestrator.py lines 113-118): accept a job iff its
`job_url` is truthy (non-empty) and unseen, adding accepted URLs to the seen set. -/
def accept_new : List String → List Job → List Job × List String
  | seen, [] => ([], seen)
  | seen, j :: t =>
    if j.job_url != "" && !seen.contains j.job_url then
      let r := accept_new (j.job_url :: seen) t
      (j :: r.1, r.2)
    else
      accept_new seen t

/-- One DiscoveryRun over the adapter outputs: fold the dedup loop over the batches,
threading the seen set (shared `seen_urls` closure) and concatenating the accepted
jobs. The first component is the run's `all_jobs`; the second is the seen set that
lines 140-146 persist at run end (and the next run reloads). -/
def discover_run (seen : List String) : List (List Job) → List Job × List String
  | [] => ([], seen)
  | batch :: rest =>
    let r1 := accept_new seen batch
    let r2 := discover_run r1.2 rest
    (r1.1 ++ r2.1, r2.2)

/-! ## Rate limiter (`app/tools/utils/rate_limiter.py`)

Time is wall-clock whole seconds (`datetime.now()` differences; `.seconds` on
sub-day deltas is the truncated second count). Per-platform state: `_window_start`
is a `defaultdict(datetime.now)`, so a platform's entry is created at the moment
of its first read — inside `_reset_window_if_needed` during the platform's first
`acquire` (`get_remaining` is called nowhere in the repository) — not at limiter
creation; it is modelled as `Option Nat`, `none` meaning "no entry yet".
`_request_counts` defaults to 0 and `_last_request` to `datetime.min`
(unboundedly long ago, modelled as `none`); those defaults carry no timestamp, so
first-touch timing is irrelevant for them. -/

structure RLState where
  window_start : Option Nat
  request_count : Nat
  last_request : Option Nat
deriving DecidableEq

/-- Per-platform limiter state before the platform's first `acquire`: no
`_window_start` entry yet, zero count, no last request. -/
def initRL : RLState :=
  { window_start := none, request_count := 0, last_request := none }

/-- Embeds `_reset_window_if_needed` (rate_limiter.py lines 33-40): reading
`self._window_start[platform]` first-touch-creates the entry with the current
wall-clock time (the `defaultdict(datetime.now)` factory), after which
`now - window_start` is 0 and no reset fires; on later calls the count resets —
and the window restarts at `now` — when strictly more than one minute has passed
since `window_start`. -/
def reset_window_if_needed (s : RLState) (now : Nat) : RLState :=
  match s.window_start with
  | none => { s with window_start := some now }
  | some ws =>
    if now > ws + 60 then
      { s with request_count := 0, window_start := some now }
    else s

/-- Embeds `acquire` (rate_limiter.py lines 42-67) called at wall-clock `now`,
returning the time at which the request proceeds and the new state. After the
reset check the window entry always exists, so the `getD now` fallback is never
taken. When the count is at the limit, the while-loop sleeps until
`window_start + 60` and re-checks; the reset condition `now - window_start > 60`
first holds at `window_start + 61` whole seconds, at which point the count resets
and the loop exits. After the window gate, a minimum 2-second spacing from
`last_request` is enforced, and the request is recorded. -/
def acquire (limit : Nat) (s : RLState) (now : Nat) : Nat × RLState :=
  let s1 := reset_window_if_needed s now
  let ws := s1.window_start.getD now
  let gate :=
    if s1.request_count ≥ limit then
      (ws + 61, { s1 with request_count := 0, window_start := some (ws + 61) })
    else (now, s1)
  let t2 := gate.1
  let s2 := gate.2
  let t3 :=
    match s2.last_request with
    | some l => if t2 < l + 2 then l + 2 else t2
    | none => t2
  (t3, { s2 with request_count := s2.request_count + 1, last_request := some t3 })

/-- A sequential caller issuing `acquire` at the given wall-clock instants (never
before the previous call returned): returns the times at which requests proceeded. -/
def run_acquires (limit : Nat) : RLState → Nat → List Nat → List Nat
  | _, _, [] => []
  | s, clock, t :: ts =>
    let now := max clock t
    let step := acquire limit s now
    step.1 :: run_acquires limit step.2 step.1 ts

/-- How many of `times` fall inside the rolling 60-second window starting at `a`. -/
def count_in_window (a : Nat) (times : List Nat) : Nat :=
  (times.filter (fun t => a ≤ t && t < a + 60)).length

/-! ## Shared pre-filter (`app/agents/job_discovery/base_discovery_agent.py`,
`filter_relevant_jobs`, lines 152-334)

The per-job loop applies, in order: freshness of `posted_date`, duplicate-URL skip
(the URL is added to the call-local seen set when the job reaches that check),
CV-title exclusion, experience-requirement exclusions, senior-title exclusion, and
an AI-relevance test. A job entering the `if is_relevant:` block always evaluates
line 317, `if min_exp_required <= 1:`, whose name `min_exp_required` is bound
nowhere in the function — a `NameError` that aborts the whole call. The embedding
returns `Except`, with that abort as the error case. -/

/-- Separator alternation `(?:-|\s*to\s*|\s*)` followed by `\s*`, applied after the
whitespace following the first number has been consumed: a literal `-` or a literal
`to` (each with trailing whitespace skipped), or nothing. -/
def sep_skip (l : List Char) : List Char :=
  match l with
  | '-' :: t => skipWs t
  | 't' :: 'o' :: t => skipWs t
  | _ => l

/-- Python `re.findall(r'(\d+)\s*(?:-|\s*to\s*|\s*)\s*(\d*)', s)` as numbers:
non-overlapping left-to-right matches, each a first number, an optional separator,
and an optional second number; scanning resumes after each match. Backtracking
never changes the result here (every alternative allows the empty second group to
complete the match), so the greedy scan is exact. -/
def scanExpPairsGo (fuel : Nat) : List Char → List (Nat × Option Nat) :=
  match fuel with
  | 0 => fun _ => []
  | fuel + 1 => fun s =>
    match s with
    | [] => []
    | c :: t =>
      if c.isDigit then
        let d1 := natFromChars (c :: t.takeWhile Char.isDigit)
        let r3 := sep_skip (skipWs (t.dropWhile Char.isDigit))
        let d2cs := r3.takeWhile Char.isDigit
        (d1, if d2cs.isEmpty then none else some (natFromChars d2cs)) ::
          scanExpPairsGo fuel (r3.dropWhile Char.isDigit)
      else scanExpPairsGo fuel t

/-- Entry point: every step of the scanner consumes at least one character of `s`
(the leading digit of a match, or the skipped non-digit), so `s.length` steps always
suffice; the fuel only makes the recursion structural. -/
def scanExpPairs (s : List Char) : List (Nat × Option Nat) :=
  scanExpPairsGo s.length s

/-- Experience extraction of the filter (lines 228-256): the first scanned pair with
both numbers below 20 wins (a missing second number defaults to the first); otherwise,
when "year" or "exp" occurs in the text, the first plain digit run below 20 is used
for both bounds; otherwise both bounds are 0. -/
def parse_exp_bounds (exp_req_lower : String) : Nat × Nat :=
  let pairs := (scanExpPairs exp_req_lower.toList).map (fun pr => (pr.1, pr.2.getD pr.1))
  let valid := pairs.filter (fun pr => pr.1 < 20 && pr.2 < 20)
  match valid.head? with
  | some pr => pr
  | none =>
    if pyIn "year" exp_req_lower || pyIn "exp" exp_req_lower then
      match (findNums exp_req_lower).head? with
      | some v => if v < 20 then (v, v) else (0, 0)
      | none => (0, 0)
    else (0, 0)

def fresh_kws : List String := ["just now", "today", "hour", "minute", "moments ago"]

/-- Freshness of a lowercased `posted_date` (lines 182-195). An empty date counts as
fresh ("benefit of doubt"). -/
def is_fresh_listing (pd : String) : Bool :=
  if fresh_kws.any (fun kw => pyIn kw pd) then true
  else if pyIn "day ago" pd || pyIn "days ago" pd then pyIn "0 days" pd
  else if pd == "" then true
  else false

/-- CV-role exclusion on the lowercased role (lines 206-213). -/
def is_cv_role_check (role : String) : Bool :=
  (EXCLUDED_JOB_TITLES ++ EXCLUDED_SKILLS).any (fun ex => pyIn (pyLower ex) role) ||
  pyIn "computer vision" role || pyIn "opencv" role

def senior_indicators : List String :=
  ["senior", "staff", "principal", "lead", "director", "vp", "sr.", "manager"]

def high_exp_kws : List String := ["5+", "8+", "10+", "5-", "6-", "7-", "8-"]

/-- The experience-based exclusions (lines 258-283) on the lowercased requirement
text and its parsed bounds: minimum ≥ 3, maximum ≥ 5, a textual "4 years" not part
of an accepted 0-4, 1-4 or 2-4 range, or an explicit high-experience marker from
`high_exp_kws`. -/
def exp_skip_check (e : String) (mn mx : Nat) : Bool :=
  mn ≥ 3 || mx ≥ 5 ||
  ((pyIn "4 years" e || pyIn "4+ years" e) &&
    !(pyIn "0-4" e || pyIn "1-4" e || pyIn "2-4" e)) ||
  high_exp_kws.any (fun kw => pyIn kw e)

def filter_ai_keywords : List String :=
  ["ai", "ml", "machine learning", "llm", "nlp", "deep learning",
   "data scientist", "genai", "generative", "gen ai",
   "ai developer", "ml developer", "ai engineer", "ml engineer",
   "deep learning engineer"]

/-- AI-relevance of the lowercased role (lines 289-300). -/
def is_relevant_check (role : String) : Bool :=
  filter_ai_keywords.any (fun kw => pyIn kw role) ||
  ((pyIn "engineer" role || pyIn "developer" role) &&
    ["ai", "ml", "data", "nlp", "llm"].any (fun kw => pyIn kw role))

/-- The message of the `NameError` raised at line 317. -/
def nameErrorMsg : String := "NameError: name min_exp_required is not defined"

/-- The per-job loop of `filter_relevant_jobs`, threading the call-local seen set
and the excluded counter. Reaching the `if is_relevant:` block raises the
`NameError` (line 317 reads the unbound `min_exp_required`). -/
def filter_go (seen : List String) (excl : Nat) :
    List Job → Except String (List Job × Nat)
  | [] => Except.ok ([], excl)
  | j :: rest =>
    let role := pyLower j.role
    let pd := pyLower j.posted_date
    if !is_fresh_listing pd && pd != "" then filter_go seen (excl + 1) rest
    else if seen.contains j.job_url then filter_go seen excl rest
    else
      let seen2 := j.job_url :: seen
      if is_cv_role_check role then filter_go seen2 (excl + 1) rest
      else
        let e := pyLower j.experience_required
        let bounds := parse_exp_bounds e
        if exp_skip_check e bounds.1 bounds.2 then filter_go seen2 (excl + 1) rest
        else if senior_indicators.any (fun kw => pyIn kw role) then
          filter_go seen2 (excl + 1) rest
        else if is_relevant_check role then Except.error nameErrorMsg
        else filter_go seen2 excl rest

/-- The result dict of a completed `filter_relevant_jobs` call. -/
structure FilterOutput where
  jobs : List Job
  filtered_count : Nat
  excluded_count : Nat
deriving DecidableEq

/-- Embeds `filter_relevant_jobs` (lines 156-332). On the non-raising path the
accepted list is whatever the loop produced, sorted by quality score — which is
always empty, every accepted job having raised first. -/
def filter_relevant_jobs (jobs : List Job) : Except String FilterOutput :=
  match filter_go [] 0 jobs with
  | Except.error e => Except.error e
  | Except.ok (f, ex) => Except.ok { jobs := f, filtered_count := f.length, excluded_count := ex }

/-- The conjunction of the loop's per-job checks up to and including relevance, on
one job in isolation (the duplicate-URL check is contextual and stated separately
in the theorems): fresh, not CV-excluded, not experience-excluded, not
senior-titled, and AI-relevant. -/
def passes_checks (j : Job) : Bool :=
  let role := pyLower j.role
  let pd := pyLower j.posted_date
  let e := pyLower j.experience_required
  let bounds := parse_exp_bounds e
  !(!is_fresh_listing pd && pd != "") &&
  !is_cv_role_check role &&
  !exp_skip_check e bounds.1 bounds.2 &&
  !(senior_indicators.any (fun kw => pyIn kw role)) &&
  is_relevant_check role

/-! ## Dedup key comparison (spec §4.5) -/

def tracking_params : List String :=
  ["utm_source", "utm_medium", "utm_campaign", "utm_term", "utm_content",
   "fbclid", "gclid", "ref"]

/-- Split a URL's characters at the first scheme separator "://". -/
def splitScheme : List Char → Option (List Char × List Char)
  | [] => none
  | ':' :: '/' :: '/' :: t => some ([], t)
  | x :: t =>
    match splitScheme t with
    | some pr => some (x :: pr.1, pr.2)
    | none => none

/-- Split a character list on a separator character ('&' between query params). -/
def splitOnChar (c : Char) : List Char → List (List Char)
  | [] => [[]]
  | x :: t =>
    if x == c then [] :: splitOnChar c t
    else
      match splitOnChar c t with
      | h :: r => (x :: h) :: r
      | [] => [[x]]

/-- Join query parameters back with '&'. -/
def joinAmp : List (List Char) → List Char
  | [] => []
  | [x] => x
  | x :: r => x ++ '&' :: joinAmp r

/-- Modelled from the spec: §4.5 DedupStore canonicalization — "case-normalize
scheme/host, strip tracking query parameters". No such function exists in the
repository (the orchestrator dedups on the raw `job_url` string); this definition
follows the spec's words and is used only to exhibit URLs the spec's key would
identify. The scheme and host are lowercased; query parameters whose key is a
known tracking key are removed. -/
def spec_canonical_url (u : String) : String :=
  match splitScheme u.toList with
  | none => u
  | some pr =>
    let scheme := pr.1.map Char.toLower
    let host := (pr.2.takeWhile (fun c => c != '/')).map Char.toLower
    let after := pr.2.dropWhile (fun c => c != '/')
    let path := after.takeWhile (fun c => c != '?')
    let query :=
      match after.dropWhile (fun c => c != '?') with
      | '?' :: q => q
      | _ => []
    let kept := (splitOnChar '&' query).filter (fun prm =>
      !prm.isEmpty &&
      !(tracking_params.map String.toList).contains (prm.takeWhile (fun c => c != '=')))
    String.mk (scheme ++ ':' :: '/' :: '/' :: host ++ path ++
      (if kept.isEmpty then [] else '?' :: joinAmp kept))

/-- Concrete jobs for the ranking analysis: equal totals (70), different skill
sub-scores (20 vs 25), `cexJobA` first in discovery order. -/
def cexJobA : Job :=
  { role := "AI Engineer", location := "Bangalore",
    skills_required := ["python", "java"], job_url := "a" }

def cexJobB : Job :=
  { role := "ML Engineer", location := "Mumbai", job_url := "b" }

/-- Concrete listing that passes every pre-filter check up to relevance. -/
def c10Job : Job :=
  { role := "AI Engineer", company := "Acme", location := "Bangalore",
    experience_required := "1-2 years", job_url := "https://ex.com/1",
    posted_date := "Today" }

/-! ## Lemmas -/

theorem getHealth_setHealth (s : SupState) (p : String) (h : PlatformHealth) :
    getHealth (setHealth s p h) p = h := by
  induction s with
  | nil => simp [setHealth, getHealth, List.find?]
  | cons e t ih =>
    by_cases hep : e.1 == p
    · simp [setHealth, getHealth, hep, List.find?]
    · simp only [setHealth, hep, Bool.false_eq_true, if_false]
      simpa [getHealth, List.find?, hep] using ih

/-- Trace of `k` consecutive failures recorded for a platform whose entry starts
with a zero failure counter and active status: the counter counts the failures, the
platform is disabled exactly from the third failure on, and the alert fires on
every failure from the third on (so exactly once across the first three). -/
theorem record_failures_trace (p err : String) (k : Nat) :
    ∀ s : SupState, (getHealth s p).failures = 0 →
      (getHealth s p).status = PStatus.active →
      (getHealth (record_failures_from s p err k).1 p).failures = k ∧
      (getHealth (record_failures_from s p err k).1 p).status =
        (if 3 ≤ k then PStatus.disabled else PStatus.active) ∧
      (record_failures_from s p err k).2 = k - 2 := by
  induction k with
  | zero => intro s h0 hA; simpa [record_failures_from] using ⟨h0, hA⟩
  | succ n ih =>
    intro s h0 hA
    obtain ⟨hf, hs, ha⟩ := ih s h0 hA
    simp only [record_failures_from]
    by_cases h3 : 3 ≤ n + 1
    · have hge : (getHealth (record_failures_from s p err n).1 p).failures + 1 ≥
          max_failures := by simp [max_failures]; omega
      simp only [record_failure, hge, if_true, getHealth_setHealth]
      refine ⟨by simp [hf], by simp [h3], ?_⟩
      simp [ha]; omega
    · have hn3 : ¬ 3 ≤ n := by omega
      have hlt : ¬ ((getHealth (record_failures_from s p err n).1 p).failures + 1 ≥
          max_failures) := by simp [max_failures, hf]; omega
      simp only [record_failure, hlt, if_false, getHealth_setHealth]
      refine ⟨by simp [hf], ?_, ?_⟩
      · simp only [h3, if_false]
        simpa [hn3] using hs
      · simp [ha]; omega

/-- C3 counterexample: after 3 consecutive failures the supervisor has disabled
"indeed" and sent exactly one alert, yet a subsequent DiscoveryRun still invokes
the "indeed" adapter — `adapter_invoked` (the faithful model of the orchestrator's
platform loop, orchestrator.py lines 95-134) does not depend on the supervisor at
all, refuting "subsequent DiscoveryRuns do not invoke that source's adapter". -/
theorem supervisor_not_consulted_counterexample :
    is_platform_active (record_failures_from [] "indeed" "timeout" 3).1 "indeed" = false ∧
    (record_failures_from [] "indeed" "timeout" 3).2 = 1 ∧
    adapter_invoked ["indeed"] ["Bangalore"] ["AI Engineer"] "indeed" = true := by
  decide

/-- C3 (amended): after 3 consecutive failures on a source starting with a clean
counter, the Supervisor marks it Disabled and exactly one alert is sent at that
transition; but the discovery loop never consults the Supervisor, so any
DiscoveryRun whose platform list contains the source (with a known agent and
non-empty location/keyword lists) still invokes its adapter. -/
theorem supervisor_disable_alert_but_adapter_still_invoked (s : SupState)
    (p err : String) (platforms locations keywords : List String)
    (h0 : (getHealth s p).failures = 0)
    (hA : (getHealth s p).status = PStatus.active)
    (hp : platforms.contains p = true)
    (hk : PLATFORM_AGENTS.contains p = true)
    (hl : locations.isEmpty = false)
    (hw : keywords.isEmpty = false) :
    is_platform_active (record_failures_from s p err 3).1 p = false ∧
    (record_failures_from s p err 3).2 = 1 ∧
    adapter_invoked platforms locations keywords p = true := by
  obtain ⟨-, hs, ha⟩ := record_failures_trace p err 3 s h0 hA
  refine ⟨by simp [is_platform_active, hs], by simpa using ha, ?_⟩
  unfold adapter_invoked
  rw [hp, hk, hl, hw]
  rfl

/-- C3 witness: fresh supervisor, source "glassdoor", a one-platform run. -/
theorem supervisor_disable_alert_witness :
    is_platform_active (record_failures_from [] "glassdoor" "blocked" 3).1 "glassdoor" =
      false ∧
    adapter_invoked ["glassdoor"] ["Kochi"] ["ML Engineer"] "glassdoor" = true :=
  ⟨(supervisor_disable_alert_but_adapter_still_invoked [] "glassdoor" "blocked"
      ["glassdoor"] ["Kochi"] ["ML Engineer"] (by decide) (by decide) (by decide)
      (by decide) (by decide) (by decide)).1,
   (supervisor_disable_alert_but_adapter_still_invoked [] "glassdoor" "blocked"
      ["glassdoor"] ["Kochi"] ["ML Engineer"] (by decide) (by decide) (by decide)
      (by decide) (by decide) (by decide)).2.2⟩

theorem skill_div_le (m n : Nat) (hmn : m ≤ n) (hn : 0 < n) : m * 40 / n ≤ 40 := by
  calc m * 40 / n ≤ n * 40 / n := Nat.div_le_div_right (Nat.mul_le_mul_right 40 hmn)
  _ = 40 := Nat.mul_div_cancel_left 40 hn

theorem calculate_skill_match_le (js rs : List String) :
    (calculate_skill_match js rs).score ≤ 40 := by
  unfold calculate_skill_match
  dsimp only
  split
  next h => exact skill_div_le _ _ (List.length_filter_le _ _) h
  next h => omega

theorem calculate_experience_match_le (e : String) :
    (calculate_experience_match e).score ≤ 25 := by
  unfold calculate_experience_match
  dsimp only
  repeat' split
  all_goals (dsimp only; omega)

theorem calculate_location_match_le (l : String) :
    (calculate_location_match l).score ≤ 15 := by
  unfold calculate_location_match
  dsimp only
  split_ifs <;> (dsimp only; omega)

theorem calculate_role_relevance_le (r : String) :
    (calculate_role_relevance r).score ≤ 20 := by
  unfold calculate_role_relevance
  dsimp only
  repeat' split
  all_goals (dsimp only; omega)

theorem score_job_total_le (job : Job) : (score_job job).fit_score ≤ 100 := by
  unfold score_job
  dsimp only
  split
  · dsimp only; omega
  · split
    · dsimp only; omega
    · have h1 := calculate_skill_match_le job.skills_required []
      have h2 := calculate_experience_match_le
        (effectiveExpReq job.experience_required job.job_description)
      have h3 := calculate_location_match_le job.location
      have h4 := calculate_role_relevance_le job.role
      dsimp only
      omega

/-- C4: every sub-score stays within its declared range — skill at most 40,
experience at most 25, location at most 15, role at most 20 (all are `Nat`, so the
lower bound 0 is inherent) — and the total fit score of `score_job` is at most
100, for every input. -/
theorem score_bounds (job : Job) (js rs : List String) (e l r : String) :
    (calculate_skill_match js rs).score ≤ 40 ∧
    (calculate_experience_match e).score ≤ 25 ∧
    (calculate_location_match l).score ≤ 15 ∧
    (calculate_role_relevance r).score ≤ 20 ∧
    (score_job job).fit_score ≤ 100 :=
  ⟨calculate_skill_match_le js rs, calculate_experience_match_le e,
   calculate_location_match_le l, calculate_role_relevance_le r,
   score_job_total_le job⟩

/-- C1 counterexample: on a hard-excluded listing (excluded role title
"Computer Vision Engineer"), `score_job` returns fit score 0 and the excluded
flag, but its result carries no recommendation at all — in particular the
recommendation is not "skip", refuting "recommendation = Skip". -/
theorem exclusion_recommendation_counterexample :
    (score_job { role := "Computer Vision Engineer" }).is_excluded = true ∧
    (score_job { role := "Computer Vision Engineer" }).fit_score = 0 ∧
    (score_job { role := "Computer Vision Engineer" }).recommendation ≠ some "skip" ∧
    (score_job { role := "Computer Vision Engineer" }).recommendation = none := by
  decide

/-- C1 (amended): whenever a hard-exclusion rule fires — the role-relevance tool
excludes the title (excluded-title list or disallowed-domain keyword) or the
experience tool excludes the effective requirement (too senior) — `score_job`
returns fit score 0 and `is_excluded = true` regardless of every other input, and
the result carries no recommendation field (the listing is dropped by `run`, never
recommended). -/
theorem exclusion_forces_zero (job : Job)
    (h : (calculate_role_relevance job.role).is_excluded = true ∨
      (calculate_experience_match
        (effectiveExpReq job.experience_required job.job_description)).is_excluded =
        true) :
    (score_job job).fit_score = 0 ∧ (score_job job).is_excluded = true ∧
    (score_job job).recommendation = none := by
  unfold score_job
  cases hrole : (calculate_role_relevance job.role).is_excluded with
  | true => simp [hrole]
  | false =>
    rcases h with h | h
    · rw [hrole] at h
      exact absurd h (by simp)
    · simp [hrole, h]

/-- C1 witness: a listing whose title matches the excluded-title list. -/
theorem exclusion_forces_zero_witness :
    (score_job { role := "Video AI Engineer" }).fit_score = 0 ∧
    (score_job { role := "Video AI Engineer" }).recommendation = none :=
  ⟨(exclusion_forces_zero { role := "Video AI Engineer" } (Or.inl (by decide))).1,
   (exclusion_forces_zero { role := "Video AI Engineer" } (Or.inl (by decide))).2.2⟩

/-- C5 counterexample: a parsed 1-4-year band ("1-4 years") is hard-excluded by
`calculate_experience_match` with score 0, refuting "the experience sub-score is
high (approximately 20-25) and the listing is not hard-excluded". -/
theorem experience_band_counterexample :
    (calculate_experience_match "1-4 years").is_excluded = true ∧
    (calculate_experience_match "1-4 years").score = 0 := by
  decide

/-- C5 (amended): an exact 0-2-year band scores the maximum 25 without exclusion;
bands with minimum at most 1 and maximum at most 3 (such as 1-3) also score 25; a
2-4 band scores the moderate 15 without exclusion; but a 1-4 band (minimum 1,
maximum 4) falls through every acceptance branch and is hard-excluded with
score 0. -/
theorem experience_bands :
    (calculate_experience_match "0-2 years").score = 25 ∧
    (calculate_experience_match "0-2 years").is_excluded = false ∧
    (calculate_experience_match "1-3 years").score = 25 ∧
    (calculate_experience_match "1-3 years").is_excluded = false ∧
    (calculate_experience_match "2-4 years").score = 15 ∧
    (calculate_experience_match "2-4 years").is_excluded = false ∧
    (calculate_experience_match "1-4 years").score = 0 ∧
    (calculate_experience_match "1-4 years").is_excluded = true := by
  decide

theorem accept_new_mono (b : List Job) :
    ∀ (seen : List String) (x : String), x ∈ seen → x ∈ (accept_new seen b).2 := by
  induction b with
  | nil => intro seen x hx; simpa [accept_new] using hx
  | cons j t ih =>
    intro seen x hx
    unfold accept_new
    split
    · exact ih _ _ (List.mem_cons_of_mem _ hx)
    · exact ih _ _ hx

theorem accept_new_covers (b : List Job) :
    ∀ (seen : List String) (j : Job), j ∈ b →
      j.job_url = "" ∨ j.job_url ∈ (accept_new seen b).2 := by
  induction b with
  | nil => intro seen j hj; simp at hj
  | cons x t ih =>
    intro seen j hj
    unfold accept_new
    rcases List.mem_cons.mp hj with rfl | hj
    · split
      next hc => exact Or.inr (accept_new_mono t _ _ (List.mem_cons_self _ _))
      next hc =>
        by_cases hurl : j.job_url = ""
        · exact Or.inl hurl
        · by_cases hmem : j.job_url ∈ seen
          · exact Or.inr (accept_new_mono t _ _ hmem)
          · exact absurd (by simp [hurl, hmem]) hc
    · split
      · exact ih _ _ hj
      · exact ih _ _ hj

theorem accept_new_stale (b : List Job) :
    ∀ seen : List String, (∀ j ∈ b, j.job_url = "" ∨ j.job_url ∈ seen) →
      accept_new seen b = ([], seen) := by
  induction b with
  | nil => intro seen _; rfl
  | cons x t ih =>
    intro seen h
    have hx := h x (List.mem_cons_self x t)
    have hc : ¬ (x.job_url != "" && !seen.contains x.job_url) = true := by
      rcases hx with h1 | h1
      · simp [h1]
      · simp [h1]
    unfold accept_new
    rw [if_neg hc]
    exact ih seen (fun j hj => h j (List.mem_cons_of_mem _ hj))

theorem accept_new_accepted (b : List Job) :
    ∀ (seen : List String) (j : Job), j ∈ (accept_new seen b).1 →
      j.job_url ∈ (accept_new seen b).2 := by
  induction b with
  | nil => intro seen j hj; simp [accept_new] at hj
  | cons x t ih =>
    intro seen j hj
    unfold accept_new at hj ⊢
    revert hj
    split
    · intro hj
      rcases List.mem_cons.mp hj with rfl | hj
      · exact accept_new_mono t _ _ (List.mem_cons_self _ _)
      · exact ih _ _ hj
    · intro hj
      exact ih _ _ hj

theorem discover_run_mono (outputs : List (List Job)) :
    ∀ (seen : List String) (x : String), x ∈ seen → x ∈ (discover_run seen outputs).2 := by
  induction outputs with
  | nil => intro seen x hx; simpa [discover_run] using hx
  | cons b rest ih =>
    intro seen x hx
    exact ih _ _ (accept_new_mono b seen x hx)

theorem discover_run_covers (outputs : List (List Job)) :
    ∀ (seen : List String) (batch : List Job) (j : Job), batch ∈ outputs → j ∈ batch →
      j.job_url = "" ∨ j.job_url ∈ (discover_run seen outputs).2 := by
  induction outputs with
  | nil => intro seen batch j hb; simp at hb
  | cons b rest ih =>
    intro seen batch j hb hj
    rcases List.mem_cons.mp hb with rfl | hb
    · rcases accept_new_covers batch seen j hj with h | h
      · exact Or.inl h
      · exact Or.inr (discover_run_mono rest _ _ h)
    · exact ih _ batch j hb hj

theorem discover_run_stale (outputs : List (List Job)) :
    ∀ seen : List String,
      (∀ batch ∈ outputs, ∀ j ∈ batch, j.job_url = "" ∨ j.job_url ∈ seen) →
      discover_run seen outputs = ([], seen) := by
  induction outputs with
  | nil => intro seen _; rfl
  | cons b rest ih =>
    intro seen h
    have hb := accept_new_stale b seen (h b (List.mem_cons_self b rest))
    have hr := ih seen (fun batch hbt j hj => h batch (List.mem_cons_of_mem _ hbt) j hj)
    unfold discover_run
    rw [hb]
    dsimp only
    rw [hr]
    rfl

theorem discover_run_accepted (outputs : List (List Job)) :
    ∀ (seen : List String) (j : Job), j ∈ (discover_run seen outputs).1 →
      j.job_url ∈ (discover_run seen outputs).2 := by
  induction outputs with
  | nil => intro seen j hj; simp [discover_run] at hj
  | cons b rest ih =>
    intro seen j hj
    unfold discover_run at hj ⊢
    rcases List.mem_append.mp hj with hj | hj
    · exact discover_run_mono rest _ _ (accept_new_accepted b seen j hj)
    · exact ih _ _ hj

/-- C6: a DiscoveryRun's accepted listings all have their URLs in the seen set it
persists at run end, and re-running with identical adapter outputs against that
persisted set accepts nothing and leaves the set unchanged. -/
theorem discovery_idempotent (seen : List String) (outputs : List (List Job)) :
    (∀ j ∈ (discover_run seen outputs).1, j.job_url ∈ (discover_run seen outputs).2) ∧
    discover_run (discover_run seen outputs).2 outputs =
      ([], (discover_run seen outputs).2) := by
  refine ⟨fun j hj => discover_run_accepted outputs seen j hj, ?_⟩
  exact discover_run_stale outputs _
    (fun batch hb j hj => discover_run_covers outputs seen batch j hb hj)

/-- C6 witness: a concrete two-batch run (with an in-run duplicate) re-run against
its own persisted seen set accepts zero listings. -/
theorem discovery_idempotent_witness :
    discover_run
        (discover_run [] [[{ job_url := "u1" }, { job_url := "u2" }],
          [{ job_url := "u1" }, { job_url := "u3" }]]).2
        [[{ job_url := "u1" }, { job_url := "u2" }],
          [{ job_url := "u1" }, { job_url := "u3" }]] =
      ([], (discover_run [] [[{ job_url := "u1" }, { job_url := "u2" }],
        [{ job_url := "u1" }, { job_url := "u3" }]]).2) :=
  (discovery_idempotent [] [[{ job_url := "u1" }, { job_url := "u2" }],
    [{ job_url := "u1" }, { job_url := "u3" }]]).2

/-- C7: the failing schedule. The limiter's window is fixed, not rolling: with
ceiling 2, sequential `acquire` calls at 0s, 59s, 61s and 63s — measured from the
platform's first acquire, which first-touch-initializes its window entry — all
proceed immediately (the fixed window that began at 0s resets at 61s), so the
rolling 60-second window starting at 59s contains 3 proceeded requests, exceeding
the configured ceiling 2. -/
theorem rate_limiter_window_burst :
    run_acquires 2 initRL 0 [0, 59, 61, 63] = [0, 59, 61, 63] ∧
    count_in_window 59 (run_acquires 2 initRL 0 [0, 59, 61, 63]) = 3 ∧
    2 < count_in_window 59 (run_acquires 2 initRL 0 [0, 59, 61, 63]) := by
  decide

/-- C8 counterexample: two listing URLs differing only in host case and a tracking
query parameter have equal spec-canonical forms, yet one discovery run accepts
both — the dedup key is the raw URL string, refuting "deduplicated to a single
accepted listing". -/
theorem canonical_dedup_counterexample :
    spec_canonical_url "https://Example.com/job/1?utm_source=mail" =
      spec_canonical_url "https://example.com/job/1" ∧
    "https://Example.com/job/1?utm_source=mail" ≠ "https://example.com/job/1" ∧
    (accept_new [] [{ job_url := "https://Example.com/job/1?utm_source=mail" },
        { job_url := "https://example.com/job/1" }]).1 =
      [{ job_url := "https://Example.com/job/1?utm_source=mail" },
        { job_url := "https://example.com/job/1" }] := by
  decide

/-- C8 (amended): the deduplication key is the raw listing URL string compared for
exact equality — two listings with byte-identical non-empty URLs are deduplicated
to the first one (while URLs differing only in case or tracking parameters are
treated as distinct, per the counterexample). -/
theorem raw_url_dedup (j1 j2 : Job) (h : j2.job_url = j1.job_url)
    (hne : j1.job_url ≠ "") :
    (accept_new [] [j1, j2]).1 = [j1] := by
  have h1 : (j1.job_url != "" && !(List.contains [] j1.job_url)) = true := by
    simp [hne]
  unfold accept_new
  rw [if_pos h1]
  have h2 : ¬ (j2.job_url != "" && !(List.contains [j1.job_url] j2.job_url)) = true := by
    simp [h]
  unfold accept_new
  rw [if_neg h2]
  rfl

/-- C8 witness: two identical URLs collapse to one accepted listing. -/
theorem raw_url_dedup_witness :
    (accept_new [] [({ job_url := "https://x.co/1" } : Job),
        ({ job_url := "https://x.co/1" } : Job)]).1 =
      [({ job_url := "https://x.co/1" } : Job)] :=
  raw_url_dedup { job_url := "https://x.co/1" } { job_url := "https://x.co/1" }
    rfl (by decide)

theorem filter_orderedInsert (v : Nat) (x : Job × ScoreResult)
    (l : List (Job × ScoreResult)) :
    (List.orderedInsert fitRel x l).filter (fun y => y.2.fit_score == v) =
      if x.2.fit_score == v then x :: l.filter (fun y => y.2.fit_score == v)
      else l.filter (fun y => y.2.fit_score == v) := by
  induction l with
  | nil => cases hx : x.2.fit_score == v <;> simp [List.orderedInsert, hx]
  | cons b t ih =>
    by_cases hab : fitRel x b
    · simp only [List.orderedInsert, if_pos hab]
      cases hx : x.2.fit_score == v <;> cases hb : b.2.fit_score == v <;>
        simp [List.filter_cons, hx, hb]
    · simp only [List.orderedInsert, if_neg hab]
      cases hx : x.2.fit_score == v
      · simp [List.filter_cons, ih, hx]
      · have hbv : (b.2.fit_score == v) = false := by
          have h1 : x.2.fit_score = v := by simpa using hx
          have h2 : ¬ b.2.fit_score ≤ x.2.fit_score := hab
          simp only [beq_eq_false_iff_ne, ne_eq]
          omega
        simp [List.filter_cons, ih, hx, hbv]

theorem filter_insertionSort (v : Nat) (l : List (Job × ScoreResult)) :
    (List.insertionSort fitRel l).filter (fun y => y.2.fit_score == v) =
      l.filter (fun y => y.2.fit_score == v) := by
  induction l with
  | nil => rfl
  | cons b t ih =>
    simp only [List.insertionSort]
    rw [filter_orderedInsert]
    cases hb : b.2.fit_score == v <;> simp [List.filter_cons, hb, ih]

/-- C9 (amended): the ranked output of `run` is sorted by descending total fit
score and is a permutation of the kept scored listings, and the sort is stable —
for every total value, the listings carrying it appear in their original discovery
order (Python's `list.sort` is stable); skill and role sub-scores play no part.
Determinism of repeated aggregation is definitional: `run_scoring` is a function
of its inputs. -/
theorem ranking_sorted_stable (jobs : List Job) (min_score : Nat) :
    List.Pairwise fitRel (run_scoring jobs min_score) ∧
    (run_scoring jobs min_score).Perm (score_and_keep jobs min_score) ∧
    ∀ v : Nat,
      (run_scoring jobs min_score).filter (fun y => y.2.fit_score == v) =
        (score_and_keep jobs min_score).filter (fun y => y.2.fit_score == v) :=
  ⟨List.sorted_insertionSort fitRel _, List.perm_insertionSort fitRel _,
   fun v => filter_insertionSort v _⟩

/-- C9 witness: the stability equation applied to the concrete tied pair at total
value 70. -/
theorem ranking_sorted_stable_witness :
    (run_scoring [cexJobA, cexJobB] 50).filter (fun y => y.2.fit_score == 70) =
      (score_and_keep [cexJobA, cexJobB] 50).filter (fun y => y.2.fit_score == 70) :=
  (ranking_sorted_stable [cexJobA, cexJobB] 50).2.2 70

/-- C9 counterexample: two listings with equal total 70 where the later one has
the strictly higher skill sub-score (25 vs 20); the ranked output keeps the
original order, so the higher-skill listing does NOT come first — refuting the
claimed skill/role tie-break. -/
theorem tie_break_counterexample :
    (score_job cexJobA).fit_score = 70 ∧
    (score_job cexJobB).fit_score = 70 ∧
    (score_job cexJobA).skill_match_score = some 20 ∧
    (score_job cexJobB).skill_match_score = some 25 ∧
    (run_scoring [cexJobA, cexJobB] 50).map (fun y => y.1) = [cexJobA, cexJobB] := by
  decide

theorem filter_go_hits_name_error :
    ∀ (pre : List Job) (seen : List String) (excl : Nat) (j : Job) (post : List Job),
      passes_checks j = true → j.job_url ∉ seen →
      (∀ x ∈ pre, x.job_url ≠ j.job_url) →
      filter_go seen excl (pre ++ j :: post) = Except.error nameErrorMsg := by
  intro pre
  induction pre with
  | nil =>
    intro seen excl j post hp hs _
    have hp' := hp
    unfold passes_checks at hp'
    simp only [Bool.and_eq_true, Bool.not_eq_true'] at hp'
    obtain ⟨⟨⟨⟨h1, h2⟩, h3⟩, h4⟩, h5⟩ := hp'
    have hseen : seen.contains j.job_url = false := by simpa using hs
    simp only [List.nil_append, filter_go]
    rw [if_neg (by rw [h1]; exact Bool.false_ne_true),
      if_neg (by rw [hseen]; exact Bool.false_ne_true),
      if_neg (by rw [h2]; exact Bool.false_ne_true)]
    rw [if_neg (by rw [h3]; exact Bool.false_ne_true),
      if_neg (by rw [h4]; exact Bool.false_ne_true),
      if_pos h5]
  | cons x pre ih =>
    intro seen excl j post hp hs hpre
    have hxj : x.job_url ≠ j.job_url := hpre x (List.mem_cons_self x pre)
    have hpre' : ∀ y ∈ pre, y.job_url ≠ j.job_url :=
      fun y hy => hpre y (List.mem_cons_of_mem _ hy)
    have hs2 : j.job_url ∉ x.job_url :: seen := by
      intro hmem
      rcases List.mem_cons.mp hmem with h | h
      · exact hxj h.symm
      · exact hs h
    simp only [List.cons_append, filter_go]
    by_cases c1 : (!is_fresh_listing (pyLower x.posted_date) &&
        pyLower x.posted_date != "") = true
    · rw [if_pos c1]; exact ih _ _ j post hp hs hpre'
    · rw [if_neg c1]
      by_cases c2 : seen.contains x.job_url = true
      · rw [if_pos c2]; exact ih _ _ j post hp hs hpre'
      · rw [if_neg c2]
        by_cases c3 : is_cv_role_check (pyLower x.role) = true
        · rw [if_pos c3]; exact ih _ _ j post hp hs2 hpre'
        · rw [if_neg c3]
          by_cases c4 : exp_skip_check (pyLower x.experience_required)
              (parse_exp_bounds (pyLower x.experience_required)).1
              (parse_exp_bounds (pyLower x.experience_required)).2 = true
          · rw [if_pos c4]; exact ih _ _ j post hp hs2 hpre'
          · rw [if_neg c4]
            by_cases c5 : (senior_indicators.any
                (fun kw => pyIn kw (pyLower x.role))) = true
            · rw [if_pos c5]; exact ih _ _ j post hp hs2 hpre'
            · rw [if_neg c5]
              by_cases c6 : is_relevant_check (pyLower x.role) = true
              · rw [if_pos c6]
              · rw [if_neg c6]; exact ih _ _ j post hp hs2 hpre'

/-- C10: whenever the input list contains a listing that passes the freshness,
CV-title, experience, seniority and AI-relevance checks and whose URL does not
collide with any earlier listing's URL (so it also passes the duplicate-URL
check), `filter_relevant_jobs` raises the `NameError` on the unbound
`min_exp_required` at line 317 — the call aborts instead of returning a filtered
list. -/
theorem filter_relevant_jobs_raises (pre : List Job) (j : Job) (post : List Job)
    (hp : passes_checks j = true)
    (hpre : ∀ x ∈ pre, x.job_url ≠ j.job_url) :
    filter_relevant_jobs (pre ++ j :: post) = Except.error nameErrorMsg := by
  unfold filter_relevant_jobs
  rw [filter_go_hits_name_error pre [] 0 j post hp (by simp) hpre]

/-- C10 witness: a concrete fresh, non-excluded, AI-relevant listing makes the
shared pre-filter raise. -/
theorem filter_relevant_jobs_raises_witness :
    passes_checks c10Job = true ∧
    filter_relevant_jobs [c10Job] = Except.error nameErrorMsg :=
  ⟨by decide,
   filter_relevant_jobs_raises [] c10Job [] (by decide) (by intro x hx; simp at hx)⟩

end JobApplying
